import Mathlib

/-!
Shallow embedding of `detector.py` (Lawanson-Tech/Human_detector).

The source is a single sampling loop (`main`) plus four helpers
(`ensure_report_exists`, `load_wave`, `play_wave`, `speak_message_then_alarm`,
`log_event`).  The loop body (lines 97-142) is embedded as a pure step
function on an explicit `LoopState`; each iteration consumes one
`DetectionSample` (the frame's face count together with the `time.time()`
reading `now`) plus the `datetime.now()` reading that `log_event` takes when
it appends a row.  Side effects (CSV appends, console prints, thread spawns,
the `last_alert_time` assignment) are recorded as an ordered `Effect` list in
source order.  The alert episode body (`speak_message_then_alarm` +
`play_wave`) is embedded as a trace of `AlertEv` events; the one-second sleep
in `play_wave`'s loop is discretised so that time advances by one second per
loop iteration, and a caught TTS exception is modelled by an `Option Nat`
saying after how many completed utterances the speech stage failed (`none`
means no failure).
-/

namespace HumanDetector

/-- Presence state held by the loop: `prev_state` starts as Python `None`
(`unknown`) and afterwards holds `"human"` (`present`) or `"no_face"`
(`absent`). -/
inductive PresenceState where
  | unknown
  | absent
  | present
deriving DecidableEq, Repr

/-- One detection reading: the `time.time()` value `now` read in the loop
iteration (the sample/transition timestamp; Lean forbids the field name `at`,
so it is `atTime`) and the face count `len(faces)`. -/
structure DetectionSample where
  atTime : Int
  subjectCount : Nat
deriving DecidableEq, Repr

/-- A state change event: emitted by the loop exactly when
`state != prev_state` (source line 114). -/
structure StateTransition where
  fromState : PresenceState
  toState : PresenceState
  atTime : Int
  subjectCount : Nat
deriving DecidableEq, Repr

/-- Configuration constants of the source (lines 16-24) that the core logic
reads, kept as parameters so the spec's configuration options map onto them. -/
structure Config where
  cooldownSeconds : Int
  alertDurationSeconds : Int
  voiceMessage : String
  speakRepeatCount : Nat
deriving DecidableEq, Repr

/-- Source constant `VOICE_MESSAGE` (line 23). -/
def VOICE_MESSAGE : String := "Warning! Intruder detected!"

/-- The source's concrete configuration: `ALERT_COOLDOWN = 5`,
`HUMAN_ALERT_DURATION = 30`, `VOICE_MESSAGE`, and the literal repeat count 2
passed in the thread arguments (line 124). -/
def defaultConfig : Config := ⟨5, 30, VOICE_MESSAGE, 2⟩

/-- The data an episode thread is spawned with (source lines 122-126):
`(VOICE_MESSAGE, alert_wave, HUMAN_ALERT_DURATION, 2)` plus the spawn time. -/
structure Episode where
  startedAt : Int
  message : String
  repeatCount : Nat
  alarmDurationSeconds : Int
deriving DecidableEq, Repr

/-- Header row written by `ensure_report_exists` (source line 30). -/
def headerRow : List String := ["timestamp", "detection", "face_count", "notes"]

/-- Embedding of `ensure_report_exists` (source lines 26-30).  The report file
is `none` when absent, otherwise its list of CSV rows; the function returns
the file content after the call. -/
def ensure_report_exists : Option (List (List String)) → List (List String)
  | none => [headerRow]
  | some rows => rows

/-- Embedding of `log_event` (source lines 67-71): the row it appends.  `ts`
is the `datetime.now()` reading taken inside `log_event` at append time
(`clockNow`), not a timestamp passed by the caller. -/
def log_event (clockNow : Int) (detection : String) (face_count : Nat)
    (notes : String) : List String :=
  [toString clockNow, detection, toString face_count, notes]

/-- Mutable state of the sampling loop (source lines 92-93 plus the report
file content): `prev_state`, `last_alert_time` (initialised to `0`), and the
rows of `REPORT_CSV`. -/
structure LoopState where
  prev_state : PresenceState
  last_alert_time : Int
  report : List (List String)
deriving DecidableEq, Repr

/-- Initial loop state: `prev_state = None`, `last_alert_time = 0`, with the
given report file content. -/
def initState (report : List (List String)) : LoopState :=
  ⟨PresenceState.unknown, 0, report⟩

/-- Ordered side effects of one loop iteration, in source order. -/
inductive Effect where
  | append (row : List String)
  | printHuman (t : Int) (n : Nat)
  | printNoFace (t : Int)
  | spawn (e : Episode)
  | setLastAlert (t : Int)
deriving DecidableEq, Repr

/-- Whether an effect is the spawn of an episode thread (line 122-126). -/
def Effect.isSpawn : Effect → Bool
  | .spawn _ => true
  | _ => false

/-- Whether an effect is the `last_alert_time = now` assignment (line 127). -/
def Effect.isSetLastAlert : Effect → Bool
  | .setLastAlert _ => true
  | _ => false

/-- Source line 111: `state = "human" if face_count > 0 else "no_face"`. -/
def stateOf (face_count : Nat) : PresenceState :=
  if 0 < face_count then PresenceState.present else PresenceState.absent

/-- Embedding of one iteration of the loop body, lines 110-132 of `main`:
on a state change, the `"human"` branch logs (via `log_event`, which reads
the clock as `logClock`), prints, and — when
`now - last_alert_time >= ALERT_COOLDOWN` — spawns the episode thread and
then sets `last_alert_time = now`; the `"no_face"` branch only prints;
finally `prev_state = state`.  Returns the new state, the emitted state
change (the spec's `StateTransition`), and the ordered effect list. -/
def step (cfg : Config) (st : LoopState) (s : DetectionSample)
    (logClock : Int) : LoopState × Option StateTransition × List Effect :=
  let face_count := s.subjectCount
  let state := stateOf face_count
  let now := s.atTime
  if state = st.prev_state then
    (st, none, [])
  else
    let tr : StateTransition := ⟨st.prev_state, state, now, face_count⟩
    if state = PresenceState.present then
      let row := log_event logClock "human" face_count "Faces detected"
      if cfg.cooldownSeconds ≤ now - st.last_alert_time then
        (⟨state, now, st.report ++ [row]⟩, some tr,
          [Effect.append row, Effect.printHuman now face_count,
           Effect.spawn ⟨now, cfg.voiceMessage, cfg.speakRepeatCount,
             cfg.alertDurationSeconds⟩,
           Effect.setLastAlert now])
      else
        (⟨state, st.last_alert_time, st.report ++ [row]⟩, some tr,
          [Effect.append row, Effect.printHuman now face_count])
    else
      (⟨state, st.last_alert_time, st.report⟩, some tr,
        [Effect.printNoFace now])

/-- Run the loop over a list of inputs (sample, `log_event` clock reading),
returning the final state. -/
def runLoop (cfg : Config) (st : LoopState) :
    List (DetectionSample × Int) → LoopState
  | [] => st
  | (s, c) :: rest => runLoop cfg (step cfg st s c).1 rest

/-- The state changes emitted over a run, in order. -/
def transitionsOf (cfg : Config) (st : LoopState) :
    List (DetectionSample × Int) → List StateTransition
  | [] => []
  | (s, c) :: rest =>
    (step cfg st s c).2.1.toList ++ transitionsOf cfg (step cfg st s c).1 rest

/-- The state changes emitted over a run, each paired with whether that
iteration spawned an episode thread. -/
def flaggedTransitions (cfg : Config) (st : LoopState) :
    List (DetectionSample × Int) → List (StateTransition × Bool)
  | [] => []
  | (s, c) :: rest =>
    ((step cfg st s c).2.1.toList.map
      (fun t => (t, ((step cfg st s c).2.2.any Effect.isSpawn))))
      ++ flaggedTransitions cfg (step cfg st s c).1 rest

/-- The episodes spawned over a run, in order. -/
def episodesOf (cfg : Config) (st : LoopState) :
    List (DetectionSample × Int) → List Episode
  | [] => []
  | (s, c) :: rest =>
    ((step cfg st s c).2.2.filterMap
      (fun e => match e with | Effect.spawn ep => some ep | _ => none))
      ++ episodesOf cfg (step cfg st s c).1 rest

/-- Events of an alert episode's execution trace. -/
inductive AlertEv where
  | say (msg : String)
  | ttsWarn
  | alarmCall (d : Int)
  | play
deriving DecidableEq, Repr

/-- Whether an event is a spoken utterance. -/
def AlertEv.isSay : AlertEv → Bool
  | .say _ => true
  | _ => false

/-- Whether an event is the invocation of the alarm stage (`play_wave`). -/
def AlertEv.isAlarmCall : AlertEv → Bool
  | .alarmCall _ => true
  | _ => false

/-- Whether an event is one play of the alarm sound (`wave.play()`). -/
def AlertEv.isPlay : AlertEv → Bool
  | .play => true
  | _ => false

/-- Embedding of `load_wave` (source lines 32-40): `None` when the file does
not exist or `WaveObject.from_wave_file` raises, the loaded wave otherwise
(the wave itself is abstract, so `Unit`). -/
def load_wave (fileExists : Bool) (loadOk : Bool) : Option Unit :=
  if fileExists = false then none
  else if loadOk then some () else none

/-- The plays of `play_wave`'s loop (source lines 47-53) with `end_time` set,
discretised to one-second steps: `wave.play()` returns immediately, so each
iteration plays once, checks the clock against `end_time`, and sleeps one
second; `n` is the number of whole seconds still to elapse.  At `n = 0` the
clock has reached `end_time`, so the loop plays once more and breaks. -/
def playLoop : Nat → List AlertEv
  | 0 => [AlertEv.play]
  | n + 1 => AlertEv.play :: playLoop n

/-- Embedding of `play_wave` (source lines 42-53) as its event trace.  The
leading `alarmCall` marks the invocation itself; with no wave the body
returns at once (line 44-45); with `repeat_for <= 0` no `end_time` is set and
the sound plays exactly once; otherwise the loop runs until the duration
elapses. -/
def play_wave (wave : Option Unit) (repeat_for : Int) : List AlertEv :=
  AlertEv.alarmCall repeat_for ::
    (match wave with
     | none => []
     | some _ => if 0 < repeat_for then playLoop repeat_for.toNat
                 else [AlertEv.play])

/-- Embedding of `speak_message_then_alarm` (source lines 55-65) as its event
trace.  `ttsFail = none` means the `try` block completes: `repeat` utterances
are queued and `runAndWait` speaks them in order.  `ttsFail = some k` means a
caught exception (engine init or any utterance) after `min k repeat`
completed utterances; the handler prints a warning and falls through.  In
both cases execution proceeds to `play_wave wave duration` (line 65). -/
def speak_message_then_alarm (message : String) (wave : Option Unit)
    (duration : Int) (repeatCount : Nat) (ttsFail : Option Nat) : List AlertEv :=
  (match ttsFail with
   | none => List.replicate repeatCount (AlertEv.say message)
   | some k => List.replicate (min k repeatCount) (AlertEv.say message)
       ++ [AlertEv.ttsWarn])
  ++ play_wave wave duration

/-- The computed presence state is never `unknown`. -/
lemma stateOf_cases (n : Nat) :
    stateOf n = PresenceState.present ∨ stateOf n = PresenceState.absent := by
  unfold stateOf
  split <;> simp

/-- Exhaustive case analysis of one loop iteration: no change, a change into
`present` with the cooldown satisfied, a change into `present` with the
cooldown unsatisfied, or a change into `absent`. -/
lemma step_cases (cfg : Config) (st : LoopState) (s : DetectionSample) (c : Int) :
    (stateOf s.subjectCount = st.prev_state ∧ step cfg st s c = (st, none, [])) ∨
    (stateOf s.subjectCount ≠ st.prev_state ∧
      stateOf s.subjectCount = PresenceState.present ∧
      cfg.cooldownSeconds ≤ s.atTime - st.last_alert_time ∧
      step cfg st s c =
        (⟨PresenceState.present, s.atTime,
            st.report ++ [log_event c "human" s.subjectCount "Faces detected"]⟩,
         some ⟨st.prev_state, PresenceState.present, s.atTime, s.subjectCount⟩,
         [Effect.append (log_event c "human" s.subjectCount "Faces detected"),
          Effect.printHuman s.atTime s.subjectCount,
          Effect.spawn ⟨s.atTime, cfg.voiceMessage, cfg.speakRepeatCount,
            cfg.alertDurationSeconds⟩,
          Effect.setLastAlert s.atTime])) ∨
    (stateOf s.subjectCount ≠ st.prev_state ∧
      stateOf s.subjectCount = PresenceState.present ∧
      ¬ cfg.cooldownSeconds ≤ s.atTime - st.last_alert_time ∧
      step cfg st s c =
        (⟨PresenceState.present, st.last_alert_time,
            st.report ++ [log_event c "human" s.subjectCount "Faces detected"]⟩,
         some ⟨st.prev_state, PresenceState.present, s.atTime, s.subjectCount⟩,
         [Effect.append (log_event c "human" s.subjectCount "Faces detected"),
          Effect.printHuman s.atTime s.subjectCount])) ∨
    (stateOf s.subjectCount ≠ st.prev_state ∧
      stateOf s.subjectCount = PresenceState.absent ∧
      step cfg st s c =
        (⟨PresenceState.absent, st.last_alert_time, st.report⟩,
         some ⟨st.prev_state, PresenceState.absent, s.atTime, s.subjectCount⟩,
         [Effect.printNoFace s.atTime])) := by
  by_cases h1 : stateOf s.subjectCount = st.prev_state
  · exact Or.inl ⟨h1, by simp [step, h1]⟩
  · by_cases h2 : stateOf s.subjectCount = PresenceState.present
    · have h1' : ¬ PresenceState.present = st.prev_state := h2 ▸ h1
      by_cases h3 : cfg.cooldownSeconds ≤ s.atTime - st.last_alert_time
      · exact Or.inr (Or.inl ⟨h1, h2, h3, by simp [step, h1', h2, h3]⟩)
      · exact Or.inr (Or.inr (Or.inl ⟨h1, h2, h3, by simp [step, h1', h2, h3]⟩))
    · have h2' : stateOf s.subjectCount = PresenceState.absent :=
        (stateOf_cases s.subjectCount).resolve_left h2
      have h1' : ¬ PresenceState.absent = st.prev_state := h2' ▸ h1
      exact Or.inr (Or.inr (Or.inr ⟨h1, h2', by simp [step, h1', h2']⟩))

/-- The computed state `stateOf` is `present` exactly on positive counts. -/
lemma stateOf_present_iff (n : Nat) :
    stateOf n = PresenceState.present ↔ 0 < n := by
  unfold stateOf
  split <;> simp_all

/-- Over a run, the report file only grows by appended rows. -/
lemma runLoop_report_grows (cfg : Config) :
    ∀ (inputs : List (DetectionSample × Int)) (st : LoopState),
      ∃ rows, (runLoop cfg st inputs).report = st.report ++ rows := by
  intro inputs
  induction inputs with
  | nil => exact fun st => ⟨[], by simp [runLoop]⟩
  | cons p rest ih =>
    intro st
    obtain ⟨s, c⟩ := p
    obtain ⟨rows, hrows⟩ := ih (step cfg st s c).1
    rcases step_cases cfg st s c with ⟨_, he⟩ | ⟨_, _, _, he⟩ | ⟨_, _, _, he⟩ |
        ⟨_, _, he⟩ <;>
      rw [runLoop] <;> rw [he] at hrows ⊢ <;> simp only [] at hrows ⊢
    · exact ⟨rows, hrows⟩
    · exact ⟨log_event c "human" s.subjectCount "Faces detected" :: rows, by
        rw [hrows, List.append_assoc]; rfl⟩
    · exact ⟨log_event c "human" s.subjectCount "Faces detected" :: rows, by
        rw [hrows, List.append_assoc]; rfl⟩
    · exact ⟨rows, hrows⟩

/-- Over a run, the number of rows added to the report equals the number of
emitted transitions into `present`. -/
lemma runLoop_report_length (cfg : Config) :
    ∀ (inputs : List (DetectionSample × Int)) (st : LoopState),
      (runLoop cfg st inputs).report.length =
        st.report.length + (transitionsOf cfg st inputs).countP
          (fun t => decide (t.toState = PresenceState.present)) := by
  intro inputs
  induction inputs with
  | nil => intro st; simp [runLoop, transitionsOf]
  | cons p rest ih =>
    intro st
    obtain ⟨s, c⟩ := p
    have ihs := ih (step cfg st s c).1
    rcases step_cases cfg st s c with ⟨h1, he⟩ | ⟨h1, h2, h3, he⟩ |
        ⟨h1, h2, h3, he⟩ | ⟨h1, h2, he⟩ <;>
      rw [runLoop, transitionsOf] <;> rw [he] at ihs ⊢
    · simp at ihs ⊢; omega
    · simp [List.countP_cons] at ihs ⊢; omega
    · simp [List.countP_cons] at ihs ⊢; omega
    · simp [List.countP_cons] at ihs ⊢; omega

/-- C1: for every ingested sample the presence state is `present` exactly when
`subjectCount > 0`; a transition is emitted iff that state differs from the
held state (initially `unknown`); an emitted transition carries
`from = previous current`, `to = new state`, the sample's timestamp and
`subjectCount`, and the held state becomes `to`; with no transition the loop
state is entirely unchanged. -/
theorem C1_stateTracker (cfg : Config) (st : LoopState) (s : DetectionSample)
    (c : Int) :
    (∀ rows, (initState rows).prev_state = PresenceState.unknown) ∧
    (stateOf s.subjectCount = PresenceState.present ↔ 0 < s.subjectCount) ∧
    ((step cfg st s c).2.1.isSome ↔ stateOf s.subjectCount ≠ st.prev_state) ∧
    (∀ t, (step cfg st s c).2.1 = some t →
      t.fromState = st.prev_state ∧ t.toState = stateOf s.subjectCount ∧
      t.atTime = s.atTime ∧ t.subjectCount = s.subjectCount ∧
      (step cfg st s c).1.prev_state = t.toState) ∧
    ((step cfg st s c).2.1 = none → step cfg st s c = (st, none, [])) := by
  refine ⟨fun rows => rfl, stateOf_present_iff s.subjectCount, ?_⟩
  rcases step_cases cfg st s c with ⟨h1, he⟩ | ⟨h1, h2, h3, he⟩ |
      ⟨h1, h2, h3, he⟩ | ⟨h1, h2, he⟩
  · refine ⟨?_, ?_, ?_⟩ <;> simp [he, h1]
  · exact ⟨by simp [he, h2]; exact h2 ▸ h1, by simp [he, h2], by simp [he]⟩
  · exact ⟨by simp [he, h2]; exact h2 ▸ h1, by simp [he, h2], by simp [he]⟩
  · exact ⟨by simp [he, h2]; exact h2 ▸ h1, by simp [he, h2], by simp [he]⟩

/-- Witness for C1 at concrete inputs: the first sample `(t = 100, count 1)`
from the initial state emits `unknown → present`, and a repeated `present`
sample emits nothing and leaves the state unchanged. -/
theorem C1_stateTracker_witness :
    ((⟨PresenceState.unknown, PresenceState.present, 100, 1⟩ :
        StateTransition).fromState = (initState []).prev_state ∧
      (⟨PresenceState.unknown, PresenceState.present, 100, 1⟩ :
        StateTransition).toState = stateOf 1 ∧
      (⟨PresenceState.unknown, PresenceState.present, 100, 1⟩ :
        StateTransition).atTime = (⟨100, 1⟩ : DetectionSample).atTime ∧
      (⟨PresenceState.unknown, PresenceState.present, 100, 1⟩ :
        StateTransition).subjectCount = (⟨100, 1⟩ : DetectionSample).subjectCount ∧
      (step defaultConfig (initState []) ⟨100, 1⟩ 100).1.prev_state =
        (⟨PresenceState.unknown, PresenceState.present, 100, 1⟩ :
          StateTransition).toState) ∧
    step defaultConfig ⟨PresenceState.present, 100, []⟩ ⟨101, 3⟩ 101 =
      (⟨PresenceState.present, 100, []⟩, none, []) :=
  ⟨(C1_stateTracker defaultConfig (initState []) ⟨100, 1⟩ 100).2.2.2.1
      ⟨PresenceState.unknown, PresenceState.present, 100, 1⟩ (by decide),
   (C1_stateTracker defaultConfig ⟨PresenceState.present, 100, []⟩ ⟨101, 3⟩
      101).2.2.2.2 (by decide)⟩

/-- C4: the logger appends exactly one record per transition into `present`,
nothing for a transition into `absent`, and over any sample sequence the
number of appended rows equals the number of `present`-entering transitions. -/
theorem C4_eventLogger (cfg : Config) (st : LoopState)
    (inputs : List (DetectionSample × Int)) :
    ((runLoop cfg st inputs).report.length =
      st.report.length + (transitionsOf cfg st inputs).countP
        (fun t => decide (t.toState = PresenceState.present))) ∧
    (∀ s c t, (step cfg st s c).2.1 = some t →
      t.toState = PresenceState.present →
      ∃ row, (step cfg st s c).1.report = st.report ++ [row]) ∧
    (∀ s c t, (step cfg st s c).2.1 = some t →
      t.toState = PresenceState.absent →
      (step cfg st s c).1.report = st.report) := by
  refine ⟨runLoop_report_length cfg inputs st, ?_, ?_⟩
  · intro s c t hsome hpres
    rcases step_cases cfg st s c with ⟨h1, he⟩ | ⟨h1, h2, h3, he⟩ |
        ⟨h1, h2, h3, he⟩ | ⟨h1, h2, he⟩
    · simp [he] at hsome
    · exact ⟨_, by rw [he]⟩
    · exact ⟨_, by rw [he]⟩
    · simp [he] at hsome
      rw [← hsome] at hpres
      simp at hpres
  · intro s c t hsome habs
    rcases step_cases cfg st s c with ⟨h1, he⟩ | ⟨h1, h2, h3, he⟩ |
        ⟨h1, h2, h3, he⟩ | ⟨h1, h2, he⟩
    · simp [he] at hsome
    · simp [he] at hsome
      rw [← hsome] at habs
      simp at habs
    · simp [he] at hsome
      rw [← hsome] at habs
      simp at habs
    · rw [he]

/-- Witness for C4 at concrete inputs: the first `present`-entering transition
appends one row; a `present → absent` transition leaves the report unchanged. -/
theorem C4_eventLogger_witness :
    (∃ row, (step defaultConfig (initState []) ⟨100, 1⟩ 100).1.report =
      (initState []).report ++ [row]) ∧
    (step defaultConfig ⟨PresenceState.present, 0, []⟩ ⟨101, 0⟩ 101).1.report =
      (⟨PresenceState.present, 0, []⟩ : LoopState).report :=
  ⟨(C4_eventLogger defaultConfig (initState []) []).2.1 ⟨100, 1⟩ 100
      ⟨PresenceState.unknown, PresenceState.present, 100, 1⟩
      (by decide) (by decide),
   (C4_eventLogger defaultConfig ⟨PresenceState.present, 0, []⟩ []).2.2
      ⟨101, 0⟩ 101 ⟨PresenceState.present, PresenceState.absent, 101, 0⟩
      (by decide) (by decide)⟩

/-- C9: report initialisation is idempotent and happens once at startup: an
absent file is created with exactly the one header row, an existing file is
left unchanged, re-running the initialisation changes nothing, and every run
started from a freshly initialised file keeps the header as its first row
(appends never rewrite it). -/
theorem C9_reportInit (cfg : Config) :
    (ensure_report_exists none = [headerRow]) ∧
    (∀ rows, ensure_report_exists (some rows) = rows) ∧
    (∀ f, ensure_report_exists (some (ensure_report_exists f)) =
      ensure_report_exists f) ∧
    (∀ inputs, (runLoop cfg (initState (ensure_report_exists none))
      inputs).report.head? = some headerRow) := by
  refine ⟨rfl, fun rows => rfl, ?_, ?_⟩
  · intro f
    cases f <;> rfl
  · intro inputs
    obtain ⟨rows, hrows⟩ :=
      runLoop_report_grows cfg inputs (initState (ensure_report_exists none))
    rw [hrows]
    rfl

/-- C5 fails on the code: `log_event` stamps the row with its own fresh
`datetime.now()` reading, not the transition's timestamp, and writes the
literal strings `"human"` and `"Faces detected"`.  Concretely, a transition
at time 0 logged when the clock reads 1 produces the row
`["1", "human", "1", "Faces detected"]`, not
`["0", "present", "1", "presence detected"]`. -/
theorem C5_counterexample :
    (step defaultConfig (initState []) ⟨0, 1⟩ 1).2.1 =
      some ⟨PresenceState.unknown, PresenceState.present, 0, 1⟩ ∧
    (step defaultConfig (initState []) ⟨0, 1⟩ 1).1.report =
      [["1", "human", "1", "Faces detected"]] ∧
    (["1", "human", "1", "Faces detected"] : List String) ≠
      ["0", "present", "1", "presence detected"] := by
  decide

/-- C5 amended: every row appended for a `present`-entering transition has
exactly the content `[clock reading at append time, "human",
transition.subjectCount, "Faces detected"]` — the timestamp is `log_event`'s
own clock reading rather than the transition's timestamp, and the state and
notes fields are the fixed strings `"human"` and `"Faces detected"`. -/
theorem C5_logRecordContent (cfg : Config) (st : LoopState)
    (s : DetectionSample) (c : Int) (t : StateTransition) :
    (step cfg st s c).2.1 = some t → t.toState = PresenceState.present →
    (step cfg st s c).1.report = st.report ++
      [[toString c, "human", toString t.subjectCount, "Faces detected"]] := by
  intro hsome hpres
  rcases step_cases cfg st s c with ⟨h1, he⟩ | ⟨h1, h2, h3, he⟩ |
      ⟨h1, h2, h3, he⟩ | ⟨h1, h2, he⟩
  · simp [he] at hsome
  · simp [he] at hsome
    subst hsome
    rw [he]
    simp [log_event]
  · simp [he] at hsome
    subst hsome
    rw [he]
    simp [log_event]
  · simp [he] at hsome
    rw [← hsome] at hpres
    simp at hpres

/-- Witness for C5 (amended) at a concrete input. -/
theorem C5_logRecordContent_witness :
    (step defaultConfig (initState []) ⟨0, 1⟩ 1).1.report =
      (initState []).report ++
        [[toString (1 : Int), "human",
          toString (⟨PresenceState.unknown, PresenceState.present, 0, 1⟩ :
            StateTransition).subjectCount, "Faces detected"]] :=
  C5_logRecordContent defaultConfig (initState []) ⟨0, 1⟩ 1
    ⟨PresenceState.unknown, PresenceState.present, 0, 1⟩ (by decide) rfl

/-- C2 fails on the code: in the effect trace of an alert-starting iteration
(source lines 122-127) the thread spawn comes first and the
`last_alert_time = now` write comes after it, so the write does not precede
the spawn.  Concretely, for the first sample `(t = 10, count 1)` the trace
is `[append, print, spawn, setLastAlert]`. -/
theorem C2_counterexample :
    ((step defaultConfig (initState []) ⟨10, 1⟩ 10).2.2.any
      Effect.isSpawn = true) ∧
    ¬ ((step defaultConfig (initState []) ⟨10, 1⟩ 10).2.2.findIdx
          Effect.isSetLastAlert <
        (step defaultConfig (initState []) ⟨10, 1⟩ 10).2.2.findIdx
          Effect.isSpawn) := by
  decide

/-- C2 amended: whenever an iteration spawns an episode, the
`last_alert_time` write is the very next effect after the spawn, still within
the same synchronous iteration, and the iteration completes with
`last_alert_time` equal to the transition time — so its update is in place
before any later sample is processed. -/
theorem C2_spawnThenCooldownWrite (cfg : Config) (st : LoopState)
    (s : DetectionSample) (c : Int) :
    (step cfg st s c).2.2.any Effect.isSpawn = true →
    ((step cfg st s c).2.2.findIdx Effect.isSpawn + 1 =
        (step cfg st s c).2.2.findIdx Effect.isSetLastAlert) ∧
    Effect.setLastAlert s.atTime ∈ (step cfg st s c).2.2 ∧
    (step cfg st s c).1.last_alert_time = s.atTime := by
  intro hspawn
  rcases step_cases cfg st s c with ⟨h1, he⟩ | ⟨h1, h2, h3, he⟩ |
      ⟨h1, h2, h3, he⟩ | ⟨h1, h2, he⟩
  · simp [he] at hspawn
  · refine ⟨?_, ?_, ?_⟩ <;>
      simp [he, List.findIdx_cons, Effect.isSpawn, Effect.isSetLastAlert]
  · simp [he, Effect.isSpawn] at hspawn
  · simp [he, Effect.isSpawn] at hspawn

/-- Witness for C2 (amended) at a concrete input. -/
theorem C2_spawnThenCooldownWrite_witness :
    ((step defaultConfig (initState []) ⟨10, 1⟩ 10).2.2.findIdx
        Effect.isSpawn + 1 =
      (step defaultConfig (initState []) ⟨10, 1⟩ 10).2.2.findIdx
        Effect.isSetLastAlert) ∧
    Effect.setLastAlert (⟨10, 1⟩ : DetectionSample).atTime ∈
      (step defaultConfig (initState []) ⟨10, 1⟩ 10).2.2 ∧
    (step defaultConfig (initState []) ⟨10, 1⟩ 10).1.last_alert_time =
      (⟨10, 1⟩ : DetectionSample).atTime :=
  C2_spawnThenCooldownWrite defaultConfig (initState []) ⟨10, 1⟩ 10 (by decide)

/-- Every spawning transition in a run happens at least a cooldown after the
`last_alert_time` held when the run began. -/
lemma flagged_spawn_gap (cfg : Config) (hcd : 0 ≤ cfg.cooldownSeconds) :
    ∀ (inputs : List (DetectionSample × Int)) (st : LoopState)
      (y : StateTransition × Bool),
      y ∈ flaggedTransitions cfg st inputs → y.2 = true →
      cfg.cooldownSeconds ≤ y.1.atTime - st.last_alert_time := by
  intro inputs
  induction inputs with
  | nil => simp [flaggedTransitions]
  | cons p rest ih =>
    intro st y hy hflag
    obtain ⟨s, c⟩ := p
    rcases step_cases cfg st s c with ⟨h1, he⟩ | ⟨h1, h2, h3, he⟩ |
        ⟨h1, h2, h3, he⟩ | ⟨h1, h2, he⟩ <;>
      simp [flaggedTransitions, he, Effect.isSpawn] at hy
    · exact ih st y hy hflag
    · rcases hy with hy | hy
      · rw [hy]
        exact h3
      · have := ih _ y hy hflag
        simp at this
        omega
    · rcases hy with hy | hy
      · rw [hy] at hflag
        simp at hflag
      · have := ih _ y hy hflag
        simp at this
        exact this
    · rcases hy with hy | hy
      · rw [hy] at hflag
        simp at hflag
      · have := ih _ y hy hflag
        simp at this
        exact this

/-- Any two spawning transitions of one run are at least a cooldown apart. -/
lemma flagged_pairwise_gap (cfg : Config) (hcd : 0 ≤ cfg.cooldownSeconds) :
    ∀ (inputs : List (DetectionSample × Int)) (st : LoopState),
      List.Pairwise (fun x y => x.2 = true → y.2 = true →
        cfg.cooldownSeconds ≤ y.1.atTime - x.1.atTime)
        (flaggedTransitions cfg st inputs) := by
  intro inputs
  induction inputs with
  | nil => simp [flaggedTransitions]
  | cons p rest ih =>
    intro st
    obtain ⟨s, c⟩ := p
    rcases step_cases cfg st s c with ⟨h1, he⟩ | ⟨h1, h2, h3, he⟩ |
        ⟨h1, h2, h3, he⟩ | ⟨h1, h2, he⟩ <;>
      simp [flaggedTransitions, he, Effect.isSpawn]
    · exact ih st
    · refine ⟨?_, ih _⟩
      intro a ha
      have := flagged_spawn_gap cfg hcd rest _ (a, true) ha rfl
      simp at this
      omega
    · exact ih _
    · exact ih _

/-- C3 fails as stated: the claim treats a never-fired orchestrator as
`elapsed = +infinity`, so a first transition into `present` should always
start an episode; but the code initialises `last_alert_time = 0`, so a first
transition at time 2 (with cooldown 5) computes `2 - 0 = 2 < 5` and is
suppressed: one `present`-entering transition, zero episodes. -/
theorem C3_counterexample :
    flaggedTransitions defaultConfig (initState []) [(⟨2, 1⟩, 2)] =
      [(⟨PresenceState.unknown, PresenceState.present, 2, 1⟩, false)] ∧
    episodesOf defaultConfig (initState []) [(⟨2, 1⟩, 2)] = [] := by
  decide

/-- C3 amended: with a never-fired orchestrator counting as
`lastAlertStartedAt = 0` (its initial value, so elapsed is measured from the
time origin): an episode is never started at a time `t` with
`t - lastAlertStartedAt < cooldownSeconds`; for a nonnegative cooldown, any
two transitions of one run that both start episodes are at least
`cooldownSeconds` apart (so two transitions into `present` less than a
cooldown apart start at most one episode); and a transition into `present`
with `t - lastAlertStartedAt >= cooldownSeconds` always starts one. -/
theorem C3_cooldown (cfg : Config) :
    (∀ st s c ep, Effect.spawn ep ∈ (step cfg st s c).2.2 →
      cfg.cooldownSeconds ≤ ep.startedAt - st.last_alert_time) ∧
    (∀ (st : LoopState) (inputs : List (DetectionSample × Int))
        (i j : Fin (flaggedTransitions cfg st inputs).length),
      i < j → 0 ≤ cfg.cooldownSeconds →
      ((flaggedTransitions cfg st inputs).get i).2 = true →
      ((flaggedTransitions cfg st inputs).get j).2 = true →
      ¬ ((flaggedTransitions cfg st inputs).get j).1.atTime -
          ((flaggedTransitions cfg st inputs).get i).1.atTime <
          cfg.cooldownSeconds) ∧
    (∀ st s c t, (step cfg st s c).2.1 = some t →
      t.toState = PresenceState.present →
      cfg.cooldownSeconds ≤ s.atTime - st.last_alert_time →
      (step cfg st s c).2.2.any Effect.isSpawn = true) := by
  refine ⟨?_, ?_, ?_⟩
  · intro st s c ep hmem
    rcases step_cases cfg st s c with ⟨h1, he⟩ | ⟨h1, h2, h3, he⟩ |
        ⟨h1, h2, h3, he⟩ | ⟨h1, h2, he⟩ <;>
      simp [he] at hmem
    subst hmem
    exact h3
  · intro st inputs i j hij hcd hi hj
    have hp := List.pairwise_iff_get.mp (flagged_pairwise_gap cfg hcd inputs st)
        i j hij hi hj
    omega
  · intro st s c t hsome hpres hcool
    rcases step_cases cfg st s c with ⟨h1, he⟩ | ⟨h1, h2, h3, he⟩ |
        ⟨h1, h2, h3, he⟩ | ⟨h1, h2, he⟩
    · simp [he] at hsome
    · simp [he, Effect.isSpawn]
    · exact absurd hcool h3
    · simp [he] at hsome
      rw [← hsome] at hpres
      simp at hpres

/-- Witness for C3 (amended) on a concrete run: from the initial state,
`present`-entering transitions at times 100 and 107 under cooldown 5 both
spawn, 107 - 100 is not below the cooldown, and the transition at 100 spawns
because `100 - 0 >= 5`. -/
theorem C3_cooldown_witness :
    (defaultConfig.cooldownSeconds ≤
      (⟨100, VOICE_MESSAGE, 2, 30⟩ : Episode).startedAt -
        (initState []).last_alert_time) ∧
    (¬ (((flaggedTransitions defaultConfig (initState [])
            [(⟨100, 1⟩, 0), (⟨101, 0⟩, 1), (⟨107, 1⟩, 2)]).get
            ⟨2, by decide⟩).1.atTime -
          (((flaggedTransitions defaultConfig (initState [])
            [(⟨100, 1⟩, 0), (⟨101, 0⟩, 1), (⟨107, 1⟩, 2)]).get
            ⟨0, by decide⟩).1.atTime) <
          defaultConfig.cooldownSeconds)) ∧
    (step defaultConfig (initState []) ⟨100, 1⟩ 0).2.2.any
      Effect.isSpawn = true :=
  ⟨(C3_cooldown defaultConfig).1 (initState []) ⟨100, 1⟩ 0
      ⟨100, VOICE_MESSAGE, 2, 30⟩ (by decide),
   (C3_cooldown defaultConfig).2.1 (initState [])
      [(⟨100, 1⟩, 0), (⟨101, 0⟩, 1), (⟨107, 1⟩, 2)] ⟨0, by decide⟩
      ⟨2, by decide⟩ (by decide) (by decide) (by decide) (by decide),
   (C3_cooldown defaultConfig).2.2 (initState []) ⟨100, 1⟩ 0
      ⟨PresenceState.unknown, PresenceState.present, 100, 1⟩ (by decide) rfl
      (by decide)⟩

/-- Counting a fixed element of a replicated list. -/
lemma countP_replicate_ev (p : AlertEv → Bool) (n : Nat) (a : AlertEv) :
    (List.replicate n a).countP p = if p a then n else 0 := by
  induction n with
  | zero => simp
  | succ n ih =>
    simp [List.replicate_succ, List.countP_cons, ih]
    by_cases hp : p a <;> simp [hp]

/-- The alarm loop plays once per elapsed second plus the final play. -/
lemma playLoop_play_count (n : Nat) :
    (playLoop n).countP AlertEv.isPlay = n + 1 := by
  induction n with
  | zero => rfl
  | succ n ih => simp [playLoop, List.countP_cons, ih, AlertEv.isPlay]

/-- The alarm loop never speaks. -/
lemma playLoop_no_say (n : Nat) :
    (playLoop n).countP AlertEv.isSay = 0 := by
  induction n with
  | zero => rfl
  | succ n ih => simp [playLoop, List.countP_cons, ih, AlertEv.isSay]

/-- The alarm loop contains no further alarm-stage invocation. -/
lemma playLoop_no_alarmCall (n : Nat) :
    (playLoop n).countP AlertEv.isAlarmCall = 0 := by
  induction n with
  | zero => rfl
  | succ n ih => simp [playLoop, List.countP_cons, ih, AlertEv.isAlarmCall]

/-- The alarm stage `play_wave` speaks nothing. -/
lemma play_wave_no_say (wave : Option Unit) (d : Int) :
    (play_wave wave d).countP AlertEv.isSay = 0 := by
  cases wave with
  | none => rfl
  | some u =>
    by_cases hd : 0 < d
    · have htr : play_wave (some u) d =
          AlertEv.alarmCall d :: playLoop d.toNat := by
        simp [play_wave, hd]
      rw [htr, List.countP_cons]
      simp [AlertEv.isSay, playLoop_no_say]
    · have htr : play_wave (some u) d =
          [AlertEv.alarmCall d, AlertEv.play] := by
        simp [play_wave, hd]
      rw [htr]
      rfl

/-- The alarm stage `play_wave` contains exactly its own invocation marker. -/
lemma play_wave_one_alarmCall (wave : Option Unit) (d : Int) :
    (play_wave wave d).countP AlertEv.isAlarmCall = 1 := by
  cases wave with
  | none => rfl
  | some u =>
    by_cases hd : 0 < d
    · have htr : play_wave (some u) d =
          AlertEv.alarmCall d :: playLoop d.toNat := by
        simp [play_wave, hd]
      rw [htr, List.countP_cons]
      simp [AlertEv.isAlarmCall, playLoop_no_alarmCall]
    · have htr : play_wave (some u) d =
          [AlertEv.alarmCall d, AlertEv.play] := by
        simp [play_wave, hd]
      rw [htr]
      rfl

/-- Every episode trace reaches the alarm-stage invocation, whatever the
speech outcome. -/
lemma alarmCall_mem_episode (msg : String) (wave : Option Unit) (d : Int)
    (rep : Nat) (ttsFail : Option Nat) :
    AlertEv.alarmCall d ∈ speak_message_then_alarm msg wave d rep ttsFail := by
  have hmem : AlertEv.alarmCall d ∈ play_wave wave d :=
    List.mem_cons_self _ _
  cases ttsFail <;> exact List.mem_append_right _ hmem

/-- Every episode trace contains exactly one alarm-stage invocation. -/
lemma episode_one_alarmCall (msg : String) (wave : Option Unit) (d : Int)
    (rep : Nat) (ttsFail : Option Nat) :
    (speak_message_then_alarm msg wave d rep ttsFail).countP
      AlertEv.isAlarmCall = 1 := by
  cases ttsFail <;>
    simp [speak_message_then_alarm, List.countP_append, List.countP_cons,
      countP_replicate_ev, AlertEv.isAlarmCall, play_wave_one_alarmCall]

/-- C6: a caught speech-stage failure (engine init or any utterance, modelled
by every value of `ttsFail`) never aborts the episode: the alarm stage is
still invoked, exactly once, in every trace. -/
theorem C6_speakFailureNeverBlocksAlarm (msg : String) (wave : Option Unit)
    (d : Int) (rep : Nat) (ttsFail : Option Nat) :
    AlertEv.alarmCall d ∈ speak_message_then_alarm msg wave d rep ttsFail ∧
    (speak_message_then_alarm msg wave d rep ttsFail).countP
      AlertEv.isAlarmCall = 1 :=
  ⟨alarmCall_mem_episode msg wave d rep ttsFail,
   episode_one_alarmCall msg wave d rep ttsFail⟩

/-- C7: with no speech failure, an episode speaks exactly `rep` utterances of
the message, in sequence as the first `rep` trace events, and the alarm stage
is invoked with duration `d` immediately after the last utterance; in
particular with `rep = 2`, `d = 5` there are exactly two utterances before
the alarm call, which carries 5. -/
theorem C7_episodeSpeakSequence (msg : String) (wave : Option Unit) (d : Int)
    (rep : Nat) :
    ((speak_message_then_alarm msg wave d rep none).countP
      AlertEv.isSay = rep) ∧
    ((speak_message_then_alarm msg wave d rep none).take rep =
      List.replicate rep (AlertEv.say msg)) ∧
    (((speak_message_then_alarm msg wave d rep none).drop rep).head? =
      some (AlertEv.alarmCall d)) ∧
    ((speak_message_then_alarm VOICE_MESSAGE (some ()) 5 2 none).countP
      AlertEv.isSay = 2) ∧
    (((speak_message_then_alarm VOICE_MESSAGE (some ()) 5 2 none).drop
      2).head? = some (AlertEv.alarmCall 5)) := by
  have htr : speak_message_then_alarm msg wave d rep none =
      List.replicate rep (AlertEv.say msg) ++ play_wave wave d := rfl
  refine ⟨?_, ?_, ?_, by decide, by decide⟩
  · simp [htr, List.countP_append, countP_replicate_ev, AlertEv.isSay,
      play_wave_no_say]
  · rw [htr]
    have h := List.take_left (List.replicate rep (AlertEv.say msg))
      (play_wave wave d)
    rwa [List.length_replicate] at h
  · rw [htr]
    have h := List.drop_left (List.replicate rep (AlertEv.say msg))
      (play_wave wave d)
    rw [List.length_replicate] at h
    rw [h]
    rfl

/-- C8: with a loaded sound the alarm stage always plays at least once — a
single play when the requested duration is zero or negative — and for a
positive duration it keeps playing once per second of the one-second sleep
loop until the duration elapses (`d + 1` plays over `d` seconds). -/
theorem C8_alarmLoopMinimumOnePlay (d : Int) :
    (1 ≤ (play_wave (some ()) d).countP AlertEv.isPlay) ∧
    (d ≤ 0 → (play_wave (some ()) d).countP AlertEv.isPlay = 1) ∧
    (0 < d → (play_wave (some ()) d).countP AlertEv.isPlay =
      Int.toNat d + 1) := by
  by_cases hd : 0 < d
  · have htr : play_wave (some ()) d =
        AlertEv.alarmCall d :: playLoop d.toNat := by
      simp [play_wave, hd]
    refine ⟨?_, fun h => absurd hd (by omega), fun _ => ?_⟩ <;>
      simp [htr, List.countP_cons, AlertEv.isPlay, playLoop_play_count]
  · have htr : play_wave (some ()) d = [AlertEv.alarmCall d, AlertEv.play] := by
      simp [play_wave, hd]
    refine ⟨?_, fun _ => ?_, fun h => absurd h hd⟩ <;>
      simp [htr, List.countP_cons, AlertEv.isPlay]

/-- Witness for C8 at concrete durations: one play at duration -1, four plays
at duration 3. -/
theorem C8_alarmLoopMinimumOnePlay_witness :
    ((play_wave (some ()) (-1)).countP AlertEv.isPlay = 1) ∧
    ((play_wave (some ()) 3).countP AlertEv.isPlay = Int.toNat 3 + 1) :=
  ⟨(C8_alarmLoopMinimumOnePlay (-1)).2.1 (by decide),
   (C8_alarmLoopMinimumOnePlay 3).2.2 (by decide)⟩

/-- C10: a missing or unloadable sound makes `load_wave` return `none`; with
no wave the alarm stage plays nothing whatever the requested duration — the
minimum-one-play guarantee does not apply — while the episode still runs to
completion (the alarm stage is still invoked and the trace is well formed). -/
theorem C10_missingSoundDegradesToNoop (ex ok : Bool) (d : Int) (msg : String)
    (rep : Nat) (ttsFail : Option Nat) :
    ((ex = false ∨ ok = false) → load_wave ex ok = none) ∧
    ((play_wave none d).countP AlertEv.isPlay = 0) ∧
    ((speak_message_then_alarm msg none d rep ttsFail).countP
      AlertEv.isPlay = 0) ∧
    AlertEv.alarmCall d ∈ speak_message_then_alarm msg none d rep ttsFail := by
  refine ⟨?_, rfl, ?_, alarmCall_mem_episode msg none d rep ttsFail⟩
  · rintro (rfl | rfl)
    · rfl
    · cases ex <;> rfl
  · cases ttsFail <;>
      simp [speak_message_then_alarm, play_wave, List.countP_append,
        List.countP_cons, countP_replicate_ev, AlertEv.isPlay]

/-- Witness for C10 at concrete inputs: a missing file loads as `none`. -/
theorem C10_missingSoundDegradesToNoop_witness :
    load_wave false true = none :=
  (C10_missingSoundDegradesToNoop false true 0 VOICE_MESSAGE 2 none).1
    (Or.inl rfl)


end HumanDetector
